import Mathlib

/-!
Verification of the inference-gateway client of the `ocr` service
(`app/vllm_client.py`, `app/image_processing.py`) against its design
specification.  Python values parsed from JSON are modelled by the
inductive `Json`; Python dicts become association lists with
first-match lookup; `str.strip()` becomes `pyStrip`, `str.lower()`
becomes `pyLower`, slicing `s[:n]` becomes `pyTake`.
`VLLMError` (the spec's GatewayError) becomes the record `VLLMErr`,
whose fields mirror the Python constructor's keyword arguments and
their defaults; the `VLLMTimeoutError` subclass is tracked by the
`isTimeout` flag.
-/

/-- A parsed JSON value, as returned by `response.json()`. -/
inductive Json where
  | null
  | bool (b : Bool)
  | num (n : Int)
  | str (s : String)
  | arr (items : List Json)
  | obj (kvs : List (String × Json))

/-- The whitespace characters removed by Python's `str.strip()`
(restricted to ASCII, which covers every string these claims touch). -/
def isPySpace (c : Char) : Bool :=
  c = ' ' || c = '\t' || c = '\n' || c = '\r' || c = '\x0b' || c = '\x0c'

/-- Python `s.strip()`: drop leading and trailing whitespace. -/
def pyStrip (s : String) : String :=
  String.mk (((s.data.dropWhile isPySpace).reverse.dropWhile isPySpace).reverse)

/-- Python `s[:n]`: the first `n` characters (code points) of `s`. -/
def pyTake (s : String) (n : Nat) : String :=
  String.mk (s.data.take n)

/-- The `VLLMError` exception of `app/vllm_client.py`, with the same
field defaults as the Python constructor (`backend_error_class`
defaults to `"vllm_error"`, everything else to `None`).  `isTimeout`
records whether the raised exception was the `VLLMTimeoutError`
subclass. -/
structure VLLMErr where
  message : String
  detail : Option String := none
  backend_status_code : Option Int := none
  backend_error_class : String := "vllm_error"
  backend_latency_ms : Option Int := none
  isTimeout : Bool := false
deriving DecidableEq, Repr

/-- Outcome of `_extract_message_content`.  The source function either
returns a string, raises `VLLMError`, or — when handed a value on which
`.get` is not defined (a non-dict) — crashes with Python's
`AttributeError`; the last case is modelled by `typeError`. -/
inductive ExtractResult where
  | ok (s : String)
  | err (e : VLLMErr)
  | typeError (msg : String)
deriving DecidableEq, Repr

/-- `VLLMError("vLLM response did not include any completion choices.")`:
all keyword arguments left at their defaults. -/
def errNoChoices : VLLMErr :=
  { message := "vLLM response did not include any completion choices." }

/-- `VLLMError("vLLM returned an unsupported completion content format.")`:
all keyword arguments left at their defaults. -/
def errUnsupported : VLLMErr :=
  { message := "vLLM returned an unsupported completion content format." }

/-- The `parts` accumulation in `_extract_message_content`: from a
`content` list, the `"text"` field of every dict item whose `"text"`
value is a string; non-dict items and non-string or missing `"text"`
fields are skipped. -/
def textParts (items : List Json) : List String :=
  items.filterMap fun item =>
    match item with
    | Json.obj ikvs =>
      match ikvs.lookup "text" with
      | some (Json.str t) => some t
      | _ => none
    | _ => none

/-- The final lines of `_extract_message_content`, shared by every path
that exhausts the `content` strategies: `text = first_choice.get("text")`;
if it is a string return it trimmed, else raise
`VLLMError("vLLM returned an unsupported completion content format.")`. -/
def fallbackTextField (first_choice : List (String × Json)) : ExtractResult :=
  match first_choice.lookup "text" with
  | some (Json.str t) => ExtractResult.ok (pyStrip t)
  | _ => ExtractResult.err errUnsupported

/-- `message = first_choice.get("message", {}) if isinstance(first_choice,
dict) else {}` followed by `content = message.get("content", "") if
isinstance(message, dict) else ""`: the `content` value examined by
`_extract_message_content` (defaulting to the empty string). -/
def choiceContent (first_choice : List (String × Json)) : Json :=
  match (first_choice.lookup "message").getD (Json.obj []) with
  | Json.obj mkvs => (mkvs.lookup "content").getD (Json.str "")
  | _ => Json.str ""

/-- `first_choice = choices[0] if isinstance(choices[0], dict) else {}`:
the first choice's key/value pairs, or an empty dict. -/
def firstChoiceDict (c0 : Json) : List (String × Json) :=
  match c0 with
  | Json.obj fkvs => fkvs
  | _ => []

/-- The per-choice part of `_extract_message_content`: string content
is returned trimmed; list content is joined over `textParts` with
newline separators and used if non-empty after trimming; every other
shape falls through to `fallbackTextField`. -/
def extractFromChoice (first_choice : List (String × Json)) : ExtractResult :=
  match choiceContent first_choice with
  | Json.str s => ExtractResult.ok (pyStrip s)
  | Json.arr items =>
    let combined := pyStrip (String.intercalate "\n" (textParts items))
    if combined ≠ "" then ExtractResult.ok combined
    else fallbackTextField first_choice
  | _ => fallbackTextField first_choice

/-- `_extract_message_content` of `app/vllm_client.py`:
`choices = result.get("choices", [])`; raise
`VLLMError("vLLM response did not include any completion choices.")`
when `choices` is not a list or is empty; otherwise run the content
strategies on `first_choice = choices[0] if isinstance(choices[0],
dict) else {}`.  A non-dict `result` makes the very first `.get`
attribute access fail in Python (`AttributeError`), modelled by
`typeError`. -/
def extractMessageContent (result : Json) : ExtractResult :=
  match result with
  | Json.obj rkvs =>
    match (rkvs.lookup "choices").getD (Json.arr []) with
    | Json.arr [] => ExtractResult.err errNoChoices
    | Json.arr (c0 :: _) => extractFromChoice (firstChoiceDict c0)
    | _ => ExtractResult.err errNoChoices
  | _ => ExtractResult.typeError "AttributeError: object has no attribute get"

/-- A Python exception caught by an `except` clause: its class name
(`exc.__class__.__name__`) and `str(exc)`. -/
structure PyExc where
  name : String
  msg : String
deriving DecidableEq, Repr

/-- The slice of an `httpx.Response` the gateway client reads: the HTTP
status code, `response.text`, and the result of `response.json()`
(which either returns a parsed value or raises `ValueError`). -/
structure HttpResponse where
  status_code : Int
  text : String
  jsonResult : Except PyExc Json

/-- The `isinstance(message, str) and message.strip()` pattern of
`_extract_error_message`: the trimmed string when the value is a
non-blank string, otherwise nothing. -/
def nonBlankString : Option Json → Option String
  | some (Json.str m) => if pyStrip m = "" then none else some (pyStrip m)
  | _ => none

/-- Strategy (1) of `_extract_error_message`: a dict under the
payload's `"error"` key with a non-blank string `"message"`. -/
def errorKeyMessage (kvs : List (String × Json)) : Option String :=
  match kvs.lookup "error" with
  | some (Json.obj ekvs) => nonBlankString (ekvs.lookup "message")
  | _ => none

/-- `_extract_error_message` of `app/vllm_client.py`: if
`response.json()` raises, return `response.text[:500]`; if the payload
is a dict, try `payload["error"]["message"]`, then a top-level
`payload["message"]` (each used only when a non-blank string, trimmed);
otherwise — including a non-dict payload — return
`response.text[:500]`. -/
def extractErrorMessage (r : HttpResponse) : String :=
  match r.jsonResult with
  | Except.error _ => pyTake r.text 500
  | Except.ok (Json.obj kvs) =>
    match errorKeyMessage kvs with
    | some m => m
    | none =>
      match nonBlankString (kvs.lookup "message") with
      | some m => m
      | none => pyTake r.text 500
  | Except.ok _ => pyTake r.text 500

/-- The post-transport part of `VLLMClient._chat_completion`: on a
status `≥ 400`, raise `VLLMError("vLLM returned an inference error.")`
with the extracted detail, the backend status code, error class
`"vllm_http_error"` and the measured latency; on a body that is not
JSON, raise `VLLMError("vLLM returned invalid JSON.")` tagged with the
parse exception's class name; otherwise return the parsed payload.
(The transport-exception branches of the `try` block precede this
code and are not modelled; `latency` is the measured wall-clock
latency in milliseconds, passed in explicitly.) -/
def chatCompletionHandle (r : HttpResponse) (latency : Int) : Except VLLMErr Json :=
  if r.status_code ≥ 400 then
    Except.error
      { message := "vLLM returned an inference error.",
        detail := some (extractErrorMessage r),
        backend_status_code := some r.status_code,
        backend_error_class := "vllm_http_error",
        backend_latency_ms := some latency }
  else
    match r.jsonResult with
    | Except.error exc =>
      Except.error
        { message := "vLLM returned invalid JSON.",
          detail := some exc.msg,
          backend_status_code := some r.status_code,
          backend_error_class := exc.name,
          backend_latency_ms := some latency }
    | Except.ok data => Except.ok data

/-- `VLLMClient.run_ocr`: perform the chat completion and hand the
parsed JSON to `_extract_message_content`. -/
def runOcr (r : HttpResponse) (latency : Int) : ExtractResult :=
  match chatCompletionHandle r latency with
  | Except.error e => ExtractResult.err e
  | Except.ok data => extractMessageContent data

/-- One attempt of the readiness probe `GET /v1/models`: either an HTTP
response (status and body text) or a transport exception. -/
inductive ProbeOutcome where
  | response (status : Int) (text : String)
  | exc (e : PyExc)
deriving Repr

/-- The `last_error` strings built in `VLLMClient._wait_until_ready`:
`f"vLLM readiness probe failed with HTTP {status}: {text[:400]}"` for a
non-200 response, `f"vLLM readiness probe error: {name}: {msg}"` for an
exception. -/
def describeProbe : ProbeOutcome → String
  | ProbeOutcome.response status text =>
    "vLLM readiness probe failed with HTTP " ++ toString status ++ ": " ++
      pyTake text 400
  | ProbeOutcome.exc e =>
    "vLLM readiness probe error: " ++ e.name ++ ": " ++ e.msg

/-- Outcome of `VLLMClient._wait_until_ready`, together with the number
of probe requests that were issued (ghost information used to state
that a call performed no network traffic). -/
inductive WaitResult where
  | ready (attempts : Nat)
  | timedOut (e : VLLMErr) (attempts : Nat)
deriving DecidableEq, Repr

/-- The `VLLMTimeoutError` raised when the readiness deadline passes:
error class `"vllm_startup_timeout"`, detail the last observed error. -/
def startupTimeoutErr (lastError : Option String) : VLLMErr :=
  { message := "Timed out waiting for local vLLM server readiness.",
    detail := lastError,
    backend_error_class := "vllm_startup_timeout",
    isTimeout := true }

/-- The polling loop of `VLLMClient._wait_until_ready`.  Time is the
integer `now` (seconds on the monotonic clock); `probe k` is the
outcome of the `k`-th `GET /v1/models` and `dur k` its duration.  While
`now < deadline`: issue the probe; on HTTP 200 return immediately;
otherwise record the descriptive `last_error` string, sleep 1 second
(the fixed interval, with no backoff) and re-check the deadline at
`now + dur k + 1`.  Once `now < deadline` fails, raise
`VLLMTimeoutError` carrying the last observed error.  `k` counts the
attempts made so far. -/
def waitUntilReady (probe : Nat → ProbeOutcome) (dur : Nat → Nat)
    (now deadline : Int) (k : Nat) (lastError : Option String) : WaitResult :=
  if _h : now < deadline then
    match probe k with
    | ProbeOutcome.response status text =>
      if status = 200 then WaitResult.ready (k + 1)
      else
        waitUntilReady probe dur (now + (dur k : Int) + 1) deadline (k + 1)
          (some (describeProbe (ProbeOutcome.response status text)))
    | ProbeOutcome.exc e =>
      waitUntilReady probe dur (now + (dur k : Int) + 1) deadline (k + 1)
        (some (describeProbe (ProbeOutcome.exc e)))
  else
    WaitResult.timedOut (startupTimeoutErr lastError) k
termination_by (deadline - now).toNat
decreasing_by
  all_goals omega

/-- `VLLMClient._wait_until_ready` from the top: the deadline is
`now + timeout_seconds` (`settings.vllm_startup_timeout_seconds`), no
attempts made yet, `last_error = None`. -/
def waitFrom (probe : Nat → ProbeOutcome) (dur : Nat → Nat)
    (now timeout_seconds : Int) : WaitResult :=
  waitUntilReady probe dur now (now + timeout_seconds) 0 none

/-- Python `s.lower()` (ASCII, which covers the MIME strings). -/
def pyLower (s : String) : String :=
  String.mk (s.data.map Char.toLower)

/-- `ALLOWED_CONTENT_TYPES` of `app/image_processing.py`. -/
def ALLOWED_CONTENT_TYPES : List String :=
  ["image/jpeg", "image/jpg", "image/png", "image/webp", "image/bmp",
   "image/tiff"]

/-- `_MIME_ALIASES` of `app/image_processing.py`. -/
def MIME_ALIASES : List (String × String) :=
  [("image/jpg", "image/jpeg")]

/-- `normalize_image_mime_type` of `app/image_processing.py`:
strip, lowercase, then apply the alias table. -/
def normalize_image_mime_type (content_type : String) : String :=
  let normalized := pyLower (pyStrip content_type)
  (MIME_ALIASES.lookup normalized).getD normalized

/-- Modelled from the spec: the upload-validation guard that sits in
front of the gateway client (its call-site is in the HTTP routing
layer, outside the modelled sources) rejects any image whose
normalized MIME type is not in the allow-list
`ALLOWED_CONTENT_TYPES`, so that an unrecognized MIME never reaches
the gateway client. -/
def acceptImageMime (content_type : String) : Bool :=
  decide (normalize_image_mime_type content_type ∈ ALLOWED_CONTENT_TYPES)

/-- `isinstance(x, list)` on a parsed JSON value. -/
def isJsonList : Json → Bool
  | Json.arr _ => true
  | _ => false

/-- A `content` value on which both the string strategy and the
non-empty-list strategy of `_extract_message_content` fail: it is not a
string, and if it is a list, the joined text parts trim to the empty
string. -/
def contentFallsThrough : Json → Bool
  | Json.str _ => false
  | Json.arr items =>
    pyStrip (String.intercalate "\n" (textParts items)) = ""
  | _ => true

/-- A 200 backend response whose first choice is the empty dict: for
this body `_extract_message_content` sees `message = {}`, hence
`content = ""`, a string. -/
def respEmptyChoice : HttpResponse :=
  { status_code := 200, text := "irrelevant",
    jsonResult := Except.ok (Json.obj [("choices", Json.arr [Json.obj []])]) }

/-- A 200 backend response whose first choice carries a plain string
`message.content`. -/
def contentStringResponse (s : String) : HttpResponse :=
  { status_code := 200, text := "",
    jsonResult := Except.ok (Json.obj [("choices", Json.arr
      [Json.obj [("message", Json.obj [("content", Json.str s)])]])]) }

/-- A probe schedule that fails once with HTTP 503 and then reports
HTTP 200, each probe taking no measurable time. -/
def probeEx : Nat → ProbeOutcome := fun k =>
  if k = 0 then ProbeOutcome.response 503 "busy" else ProbeOutcome.response 200 "ok"

/-- Probe durations for `probeEx`: instantaneous. -/
def durEx : Nat → Nat := fun _ => 0

/-- `fallbackTextField` returns a trimmed string or the
unsupported-format error. -/
lemma fallbackTextField_shape (fc : List (String × Json)) :
    (∃ s, fallbackTextField fc = ExtractResult.ok s) ∨
      fallbackTextField fc = ExtractResult.err errUnsupported := by
  unfold fallbackTextField
  split
  · exact Or.inl ⟨_, rfl⟩
  · exact Or.inr rfl

/-- `extractFromChoice` returns a string or the unsupported-format
error. -/
lemma extractFromChoice_shape (fc : List (String × Json)) :
    (∃ s, extractFromChoice fc = ExtractResult.ok s) ∨
      extractFromChoice fc = ExtractResult.err errUnsupported := by
  unfold extractFromChoice
  cases hc : choiceContent fc
  case str s => exact Or.inl ⟨_, rfl⟩
  case arr items =>
    simp only
    split
    · exact Or.inl ⟨_, rfl⟩
    · exact fallbackTextField_shape fc
  all_goals simpa only using fallbackTextField_shape fc

/-- `_extract_message_content` never reaches the `typeError` outcome on
a dict input: every `.get`, indexing and iteration after the first line
is guarded by an `isinstance` check in the source. -/
lemma extract_obj_ne_typeError (kvs : List (String × Json)) (m : String) :
    extractMessageContent (Json.obj kvs) ≠ ExtractResult.typeError m := by
  intro h
  simp only [extractMessageContent] at h
  split at h
  · exact ExtractResult.noConfusion h
  · rename_i c0 tail heq
    rcases extractFromChoice_shape (firstChoiceDict c0) with ⟨s, hs⟩ | hs <;>
      rw [hs] at h <;> exact ExtractResult.noConfusion h
  · exact ExtractResult.noConfusion h

/-- The only `VLLMError`s `_extract_message_content` can raise are the
no-choices error and the unsupported-format error. -/
lemma extract_err_shape (j : Json) (e : VLLMErr)
    (h : extractMessageContent j = ExtractResult.err e) :
    e = errNoChoices ∨ e = errUnsupported := by
  cases j <;> simp only [extractMessageContent] at h
  case obj rkvs =>
    split at h
    · injection h with h2
      exact Or.inl h2.symm
    · rename_i c0 tail heq
      rcases extractFromChoice_shape (firstChoiceDict c0) with ⟨s, hs⟩ | hs <;>
        rw [hs] at h
      · exact ExtractResult.noConfusion h
      · injection h with h2
        exact Or.inr h2.symm
    · injection h with h2
      exact Or.inl h2.symm
  all_goals exact ExtractResult.noConfusion h

/-- Claim C1, counterexample: on the successful (HTTP 200) backend
response `{"choices":[{}]}` — a structurally absent completion —
`run_ocr` returns the empty string rather than failing with a
`GatewayError`: `message.get("content", "")` defaults the absent
content to `""`, which is a string and is returned trimmed. -/
theorem C1_counterexample : runOcr respEmptyChoice 12 = ExtractResult.ok "" := by
  decide

/-- Claim C1 (amended): a successful `run_ocr` call returns the
trimmed extracted content, which may be the empty string: whenever
`choices[0].message.content` is a string `s` the call returns `s`
trimmed even when that is empty, and when `message` or `content` is
structurally absent the call returns the empty string; there is no
non-emptiness guarantee. -/
theorem C1_string_content_success :
    ∀ (s : String) (lat : Int),
      runOcr (contentStringResponse s) lat = ExtractResult.ok (pyStrip s) ∧
      runOcr respEmptyChoice lat = ExtractResult.ok "" := by
  intro s lat
  exact ⟨rfl, rfl⟩

/-- Claim C2, counterexample: on `{"choices":[]}` (and on `{}`)
extraction does fail with a `VLLMError`, but the error's class tag is
the constructor default `"vllm_error"`, not `"malformed_response"`
(nor `"vllm_malformed_response"`, the spelling the code uses for the
other spec tags `http_error` ↦ `vllm_http_error` and
`startup_timeout` ↦ `vllm_startup_timeout`). -/
theorem C2_counterexample :
    extractMessageContent (Json.obj [("choices", Json.arr [])]) =
      ExtractResult.err errNoChoices ∧
    extractMessageContent (Json.obj []) = ExtractResult.err errNoChoices ∧
    errNoChoices.backend_error_class = "vllm_error" ∧
    errNoChoices.backend_error_class ≠ "malformed_response" ∧
    errNoChoices.backend_error_class ≠ "vllm_malformed_response" := by
  decide

/-- Claim C2 (amended): when `"choices"` is missing, not a list, or an
empty list, and in every other case where no content-extraction
strategy yields text, extraction fails with a `VLLMError` that carries
no backend HTTP status code and no latency; its error-class tag is the
constructor default `"vllm_error"` (the code defines no distinct
`malformed_response` tag). -/
theorem C2_malformed_response :
    (∀ rkvs : List (String × Json), rkvs.lookup "choices" = none →
      extractMessageContent (Json.obj rkvs) = ExtractResult.err errNoChoices) ∧
    (∀ (rkvs : List (String × Json)) (j : Json),
      rkvs.lookup "choices" = some j → isJsonList j = false →
      extractMessageContent (Json.obj rkvs) = ExtractResult.err errNoChoices) ∧
    (∀ rkvs : List (String × Json),
      rkvs.lookup "choices" = some (Json.arr []) →
      extractMessageContent (Json.obj rkvs) = ExtractResult.err errNoChoices) ∧
    (∀ (j : Json) (e : VLLMErr),
      extractMessageContent j = ExtractResult.err e →
      e.backend_status_code = none ∧ e.backend_error_class = "vllm_error" ∧
        e.backend_latency_ms = none) := by
  refine ⟨?_, ?_, ?_, ?_⟩
  · intro rkvs h
    simp only [extractMessageContent, h, Option.getD]
  · intro rkvs j h hj
    cases j
    case arr items => exact Bool.noConfusion hj
    all_goals simp only [extractMessageContent, h, Option.getD]
  · intro rkvs h
    simp only [extractMessageContent, h, Option.getD]
  · intro j e h
    rcases extract_err_shape j e h with rfl | rfl <;> exact ⟨rfl, rfl, rfl⟩

/-- Claim C2, witness: a non-list `"choices"` value is rejected with
the no-choices error, whose tag is `"vllm_error"` and which carries no
backend status code and no latency. -/
theorem C2_witness :
    extractMessageContent (Json.obj [("choices", Json.str "nope")]) =
      ExtractResult.err errNoChoices ∧
    errNoChoices.backend_status_code = none ∧
    errNoChoices.backend_error_class = "vllm_error" ∧
    errNoChoices.backend_latency_ms = none :=
  ⟨C2_malformed_response.2.1 [("choices", Json.str "nope")] (Json.str "nope")
      rfl rfl,
   C2_malformed_response.2.2.2 (Json.obj []) errNoChoices (by decide)⟩

/-- Claim C3, counterexample: in the response
`{"choices":[{"text":"fallback"}]}` the first choice has no
`"message"` key, so by the claim extraction should fall back to the
top-level `"text"` field and return `"fallback"`; the code instead
defaults the absent content to the string `""` and returns the empty
string, never consulting `"text"`. -/
theorem C3_counterexample :
    extractMessageContent
        (Json.obj [("choices", Json.arr [Json.obj [("text", Json.str "fallback")]])]) =
      ExtractResult.ok "" ∧ ("" : String) ≠ "fallback" := by
  decide

/-- Claim C3 (amended): the fall-back to the choice's top-level
`"text"` string field happens only when the `content` value is present
and is neither a string nor a list whose joined text parts trim
non-empty; when `"message"` or `"content"` is structurally absent,
`content` defaults to the empty string — a string — and extraction
returns `""` without consulting `"text"`.  The first conjunct links
`_extract_message_content` to the per-choice strategies; the second is
the corrected fall-back rule; the last two are the absent-`message`
and absent-`content` behaviour. -/
theorem C3_text_fallback :
    (∀ (rkvs : List (String × Json)) (c0 : Json) (rest : List Json),
      rkvs.lookup "choices" = some (Json.arr (c0 :: rest)) →
      extractMessageContent (Json.obj rkvs) =
        extractFromChoice (firstChoiceDict c0)) ∧
    (∀ (fc : List (String × Json)) (t : String),
      contentFallsThrough (choiceContent fc) = true →
      fc.lookup "text" = some (Json.str t) →
      extractFromChoice fc = ExtractResult.ok (pyStrip t)) ∧
    (∀ fc : List (String × Json), fc.lookup "message" = none →
      extractFromChoice fc = ExtractResult.ok "") ∧
    (∀ (fc mkvs : List (String × Json)),
      fc.lookup "message" = some (Json.obj mkvs) →
      mkvs.lookup "content" = none →
      extractFromChoice fc = ExtractResult.ok "") := by
  refine ⟨?_, ?_, ?_, ?_⟩
  · intro rkvs c0 rest h
    simp only [extractMessageContent, h, Option.getD]
  · intro fc t hc ht
    unfold extractFromChoice
    cases hcc : choiceContent fc
    case str s =>
      rw [hcc] at hc
      exact Bool.noConfusion hc
    case arr items =>
      rw [hcc] at hc
      have hempty : pyStrip (String.intercalate "\n" (textParts items)) = "" :=
        of_decide_eq_true hc
      simp only [hempty, fallbackTextField, ht, ne_eq, not_true_eq_false,
        if_false]
    all_goals simp only [fallbackTextField, ht]
  · intro fc h
    unfold extractFromChoice choiceContent
    rw [h]
    rfl
  · intro fc mkvs h hc
    unfold extractFromChoice choiceContent
    rw [h]
    simp only [Option.getD, hc]
    rfl

/-- Claim C3, witness: a choice whose `content` is JSON `null` (present
but neither string nor list) falls back to its `"text"` field, trimmed:
`{"message":{"content":null},"text":" fallback "}` extracts to
`"fallback"`. -/
theorem C3_witness :
    extractFromChoice
        [("message", Json.obj [("content", Json.null)]),
         ("text", Json.str " fallback ")] =
      ExtractResult.ok "fallback" := by
  have h := C3_text_fallback.2.1
    [("message", Json.obj [("content", Json.null)]),
     ("text", Json.str " fallback ")] " fallback " (by decide) rfl
  rw [h]
  decide

/-- Claim C4: string content is returned trimmed; list content is
joined over the string-valued `"text"` fields of its dict items with
newline separators, trimmed, and used only when non-empty (when it
trims empty and no `"text"` fallback exists, the unsupported-format
error is raised); the last conjunct shows `textParts` skipping
non-string and missing `"text"` fields and non-dict items. -/
theorem C4_content_strategies :
    (∀ (rkvs fkvs mkvs : List (String × Json)) (s : String) (rest : List Json),
      rkvs.lookup "choices" = some (Json.arr (Json.obj fkvs :: rest)) →
      fkvs.lookup "message" = some (Json.obj mkvs) →
      mkvs.lookup "content" = some (Json.str s) →
      extractMessageContent (Json.obj rkvs) = ExtractResult.ok (pyStrip s)) ∧
    (∀ (rkvs fkvs mkvs : List (String × Json)) (items rest : List Json),
      rkvs.lookup "choices" = some (Json.arr (Json.obj fkvs :: rest)) →
      fkvs.lookup "message" = some (Json.obj mkvs) →
      mkvs.lookup "content" = some (Json.arr items) →
      pyStrip (String.intercalate "\n" (textParts items)) ≠ "" →
      extractMessageContent (Json.obj rkvs) =
        ExtractResult.ok (pyStrip (String.intercalate "\n" (textParts items)))) ∧
    (∀ (rkvs fkvs mkvs : List (String × Json)) (items rest : List Json),
      rkvs.lookup "choices" = some (Json.arr (Json.obj fkvs :: rest)) →
      fkvs.lookup "message" = some (Json.obj mkvs) →
      mkvs.lookup "content" = some (Json.arr items) →
      pyStrip (String.intercalate "\n" (textParts items)) = "" →
      fkvs.lookup "text" = none →
      extractMessageContent (Json.obj rkvs) = ExtractResult.err errUnsupported) ∧
    textParts
        [Json.obj [("text", Json.str "A")], Json.obj [("text", Json.str "B")],
         Json.obj [("note", Json.str "skipped")], Json.obj [("text", Json.num 3)],
         Json.num 5] =
      ["A", "B"] := by
  refine ⟨?_, ?_, ?_, by decide⟩
  · intro rkvs fkvs mkvs s rest h1 h2 h3
    simp only [extractMessageContent, h1, Option.getD, firstChoiceDict,
      extractFromChoice, choiceContent, h2, h3]
  · intro rkvs fkvs mkvs items rest h1 h2 h3 hne
    simp only [extractMessageContent, h1, Option.getD, firstChoiceDict,
      extractFromChoice, choiceContent, h2, h3, hne, ne_eq,
      not_false_eq_true, if_true]
  · intro rkvs fkvs mkvs items rest h1 h2 h3 hemp htext
    simp only [extractMessageContent, h1, Option.getD, firstChoiceDict,
      extractFromChoice, choiceContent, h2, h3, hemp, fallbackTextField,
      htext, ne_eq, not_true_eq_false, if_false]

/-- Claim C4, witness: the spec's examples — content `"Hello"` yields
`"Hello"`, and content `[{"text":"A"},{"text":"B"}]` yields `"A\nB"`. -/
theorem C4_witness :
    extractMessageContent
        (Json.obj [("choices", Json.arr [Json.obj [("message",
          Json.obj [("content", Json.str "Hello")])]])]) =
      ExtractResult.ok "Hello" ∧
    extractMessageContent
        (Json.obj [("choices", Json.arr [Json.obj [("message",
          Json.obj [("content", Json.arr [Json.obj [("text", Json.str "A")],
            Json.obj [("text", Json.str "B")]])])]])]) =
      ExtractResult.ok "A\nB" := by
  constructor
  · have h := C4_content_strategies.1
      [("choices", Json.arr [Json.obj [("message",
        Json.obj [("content", Json.str "Hello")])]])]
      [("message", Json.obj [("content", Json.str "Hello")])]
      [("content", Json.str "Hello")] "Hello" [] rfl rfl rfl
    rw [h]
    decide
  · have h := C4_content_strategies.2.1
      [("choices", Json.arr [Json.obj [("message",
        Json.obj [("content", Json.arr [Json.obj [("text", Json.str "A")],
          Json.obj [("text", Json.str "B")]])])]])]
      [("message", Json.obj [("content", Json.arr [Json.obj [("text",
        Json.str "A")], Json.obj [("text", Json.str "B")]])])]
      [("content", Json.arr [Json.obj [("text", Json.str "A")],
        Json.obj [("text", Json.str "B")]])]
      [Json.obj [("text", Json.str "A")], Json.obj [("text", Json.str "B")]]
      [] rfl rfl rfl (by decide)
    rw [h]
    decide

/-- Claim C5: on any HTTP status `≥ 400` the completion call fails with
`VLLMError("vLLM returned an inference error.")` tagged
`"vllm_http_error"` (the code's spelling of the spec tag `http_error`),
carrying the backend status code, the measured latency, and the detail
produced by the error-message policy of `_extract_error_message`. -/
theorem C5_http_error :
    ∀ (r : HttpResponse) (latency : Int), r.status_code ≥ 400 →
      chatCompletionHandle r latency = Except.error
        { message := "vLLM returned an inference error.",
          detail := some (extractErrorMessage r),
          backend_status_code := some r.status_code,
          backend_error_class := "vllm_http_error",
          backend_latency_ms := some latency } := by
  intro r latency h
  unfold chatCompletionHandle
  rw [if_pos h]

/-- Claim C5, witness: an HTTP 500 response with body
`{"error":{"message":"GPU OOM"}}` raises the http-error
`VLLMError` carrying detail `"GPU OOM"`, backend status code 500 and
the measured latency. -/
theorem C5_witness :
    chatCompletionHandle
        { status_code := 500, text := "raw body",
          jsonResult := Except.ok (Json.obj [("error",
            Json.obj [("message", Json.str "GPU OOM")])]) } 7 =
      Except.error
        { message := "vLLM returned an inference error.",
          detail := some "GPU OOM",
          backend_status_code := some 500,
          backend_error_class := "vllm_http_error",
          backend_latency_ms := some 7 } := by
  have h := C5_http_error
    { status_code := 500, text := "raw body",
      jsonResult := Except.ok (Json.obj [("error",
        Json.obj [("message", Json.str "GPU OOM")])]) } 7 (by decide)
  exact h.trans rfl

/-- Claim C6: the ordered, first-match-wins error-message policy of
`_extract_error_message`: (1) a dict under `"error"` with a non-blank
string `"message"` is returned trimmed; (2) else a top-level non-blank
string `"message"` is returned trimmed; (3) otherwise — and whenever
the payload is not a dict — the first 500 characters of the raw
response text are returned; and when JSON parsing raises, the raw-text
fallback is used directly. -/
theorem C6_error_message_policy :
    (∀ (r : HttpResponse) (kvs ekvs : List (String × Json)) (m : String),
      r.jsonResult = Except.ok (Json.obj kvs) →
      kvs.lookup "error" = some (Json.obj ekvs) →
      ekvs.lookup "message" = some (Json.str m) →
      pyStrip m ≠ "" →
      extractErrorMessage r = pyStrip m) ∧
    (∀ (r : HttpResponse) (kvs : List (String × Json)) (m : String),
      r.jsonResult = Except.ok (Json.obj kvs) →
      errorKeyMessage kvs = none →
      kvs.lookup "message" = some (Json.str m) →
      pyStrip m ≠ "" →
      extractErrorMessage r = pyStrip m) ∧
    (∀ (r : HttpResponse) (kvs : List (String × Json)),
      r.jsonResult = Except.ok (Json.obj kvs) →
      errorKeyMessage kvs = none →
      nonBlankString (kvs.lookup "message") = none →
      extractErrorMessage r = pyTake r.text 500) ∧
    (∀ (r : HttpResponse) (j : Json),
      r.jsonResult = Except.ok j → (∀ kvs, j ≠ Json.obj kvs) →
      extractErrorMessage r = pyTake r.text 500) ∧
    (∀ (r : HttpResponse) (e : PyExc),
      r.jsonResult = Except.error e →
      extractErrorMessage r = pyTake r.text 500) := by
  refine ⟨?_, ?_, ?_, ?_, ?_⟩
  · intro r kvs ekvs m hr he hm hne
    simp only [extractErrorMessage, hr, errorKeyMessage, he, nonBlankString,
      hm, if_neg hne]
  · intro r kvs m hr he hm hne
    simp only [extractErrorMessage, hr, he, nonBlankString, hm, if_neg hne]
  · intro r kvs hr he hm
    simp only [extractErrorMessage, hr, he, hm]
  · intro r j hr hobj
    cases j
    case obj kvs => exact absurd rfl (hobj kvs)
    all_goals simp only [extractErrorMessage, hr]
  · intro r e hr
    simp only [extractErrorMessage, hr]

/-- Claim C6, witness: strategy (1) applies and trims — the body
`{"error":{"message":"  backend busy  "}}` yields `"backend busy"`. -/
theorem C6_witness :
    extractErrorMessage
        { status_code := 503, text := "unused",
          jsonResult := Except.ok (Json.obj [("error",
            Json.obj [("message", Json.str "  backend busy  ")])]) } =
      "backend busy" := by
  have h := C6_error_message_policy.1
    { status_code := 503, text := "unused",
      jsonResult := Except.ok (Json.obj [("error",
        Json.obj [("message", Json.str "  backend busy  ")])]) }
    [("error", Json.obj [("message", Json.str "  backend busy  ")])]
    [("message", Json.str "  backend busy  ")] "  backend busy  "
    rfl rfl rfl (by decide)
  rw [h]
  decide

/-- Claim C7: the readiness prober starts with deadline
`now + timeout_seconds`; while the deadline has not passed, an HTTP 200
to the model-listing GET succeeds immediately; any other status or any
transport exception records the descriptive `last_error` string and
re-enters the loop one fixed sleep second (plus the probe's own
duration) later; once the deadline is reached the prober fails with the
`VLLMTimeoutError` tagged `"vllm_startup_timeout"` (the code's spelling
of the spec tag `startup_timeout`) whose detail is the last observed
error. -/
theorem C7_readiness_prober :
    (∀ (probe : Nat → ProbeOutcome) (dur : Nat → Nat) (now t : Int),
      waitFrom probe dur now t =
        waitUntilReady probe dur now (now + t) 0 none) ∧
    (∀ (probe : Nat → ProbeOutcome) (dur : Nat → Nat) (now deadline : Int)
        (k : Nat) (le : Option String) (text : String),
      now < deadline → probe k = ProbeOutcome.response 200 text →
      waitUntilReady probe dur now deadline k le = WaitResult.ready (k + 1)) ∧
    (∀ (probe : Nat → ProbeOutcome) (dur : Nat → Nat) (now deadline : Int)
        (k : Nat) (le : Option String) (status : Int) (text : String),
      now < deadline → probe k = ProbeOutcome.response status text →
      status ≠ 200 →
      waitUntilReady probe dur now deadline k le =
        waitUntilReady probe dur (now + (dur k : Int) + 1) deadline (k + 1)
          (some (describeProbe (ProbeOutcome.response status text)))) ∧
    (∀ (probe : Nat → ProbeOutcome) (dur : Nat → Nat) (now deadline : Int)
        (k : Nat) (le : Option String) (e : PyExc),
      now < deadline → probe k = ProbeOutcome.exc e →
      waitUntilReady probe dur now deadline k le =
        waitUntilReady probe dur (now + (dur k : Int) + 1) deadline (k + 1)
          (some (describeProbe (ProbeOutcome.exc e)))) ∧
    (∀ (probe : Nat → ProbeOutcome) (dur : Nat → Nat) (now deadline : Int)
        (k : Nat) (le : Option String),
      ¬ now < deadline →
      waitUntilReady probe dur now deadline k le =
        WaitResult.timedOut (startupTimeoutErr le) k) := by
  refine ⟨fun probe dur now t => rfl, ?_, ?_, ?_, ?_⟩
  · intro probe dur now deadline k le text h hp
    rw [waitUntilReady.eq_def, dif_pos h, hp]
    exact if_pos rfl
  · intro probe dur now deadline k le status text h hp hstat
    conv_lhs => rw [waitUntilReady.eq_def]
    rw [dif_pos h, hp]
    simp only [if_neg hstat]
  · intro probe dur now deadline k le e h hp
    conv_lhs => rw [waitUntilReady.eq_def]
    rw [dif_pos h, hp]
  · intro probe dur now deadline k le h
    rw [waitUntilReady.eq_def, dif_neg h]

/-- Claim C7, witness: with a 5-second deadline, one failing probe
followed by an HTTP 200 makes the prober succeed on the second
attempt. -/
theorem C7_witness :
    waitUntilReady probeEx durEx 0 5 0 none = WaitResult.ready 2 := by
  have h1 := C7_readiness_prober.2.2.1 probeEx durEx 0 5 0 none 503 "busy"
    (by decide) rfl (by decide)
  have h2 := C7_readiness_prober.2.1 probeEx durEx (0 + (durEx 0 : Int) + 1) 5 1
    (some (describeProbe (ProbeOutcome.response 503 "busy"))) "ok"
    (by decide) rfl
  rw [h1, h2]

/-- Claim C8: for every `timeout_seconds ≤ 0` the deadline
`now + timeout_seconds` is already past, so `_wait_until_ready` fails
at once with the startup-timeout error (whose detail is `None`: no
probe error was ever observed) having issued zero probe requests. -/
theorem C8_nonpositive_timeout :
    ∀ (probe : Nat → ProbeOutcome) (dur : Nat → Nat) (now t : Int),
      t ≤ 0 →
      waitFrom probe dur now t =
        WaitResult.timedOut (startupTimeoutErr none) 0 := by
  intro probe dur now t h
  unfold waitFrom
  rw [waitUntilReady.eq_def, dif_neg (by omega)]

/-- Claim C8, witness: a zero-second timeout fails immediately with the
startup-timeout error after zero probe attempts. -/
theorem C8_witness :
    waitFrom probeEx durEx 100 0 =
      WaitResult.timedOut (startupTimeoutErr none) 0 :=
  C8_nonpositive_timeout probeEx durEx 100 0 (by decide)

/-- Claim C9: MIME normalization trims, lowercases and applies the
`jpg → jpeg` alias (`"Image/JPG"` becomes `"image/jpeg"`, `"image/png"`
is unchanged), and — with the route-level guard modelled from the spec —
any MIME type whose normalized form is outside the allow-list is
rejected before an image reaches the gateway client, while everything
the guard accepts lies in the allow-list. -/
theorem C9_mime_normalization :
    normalize_image_mime_type "Image/JPG" = "image/jpeg" ∧
    normalize_image_mime_type "image/png" = "image/png" ∧
    normalize_image_mime_type "  image/TIFF " = "image/tiff" ∧
    acceptImageMime "image/gif" = false ∧
    (∀ s : String, acceptImageMime s = true →
      normalize_image_mime_type s ∈ ALLOWED_CONTENT_TYPES) ∧
    (∀ s : String, normalize_image_mime_type s ∉ ALLOWED_CONTENT_TYPES →
      acceptImageMime s = false) := by
  refine ⟨by decide, by decide, by decide, by decide, ?_, ?_⟩
  · intro s h
    exact of_decide_eq_true h
  · intro s h
    exact decide_eq_false h

/-- Claim C9, witness: the guard accepts `" image/PNG "` (whose
normalized form is in the allow-list) and rejects
`"application/pdf"`. -/
theorem C9_witness :
    normalize_image_mime_type " image/PNG " ∈ ALLOWED_CONTENT_TYPES ∧
    acceptImageMime "application/pdf" = false :=
  ⟨C9_mime_normalization.2.2.2.2.1 " image/PNG " (by decide),
   C9_mime_normalization.2.2.2.2.2 "application/pdf" (by decide)⟩

/-- Claim C10, counterexample: `_extract_message_content` is not total
on arbitrary parsed JSON values — handed a top-level JSON array (a
value `response.json()` can produce and `run_ocr` passes through
unchecked), the very first `result.get("choices", [])` raises
`AttributeError`, which is neither a returned string nor a
`GatewayError`. -/
theorem C10_counterexample :
    extractMessageContent
        (Json.arr [Json.obj [("message",
          Json.obj [("content", Json.str "hi")])]]) =
      ExtractResult.typeError "AttributeError: object has no attribute get" := by
  decide

/-- Claim C10 (amended): for every parsed JSON object (dict) handed to
the content extractor — whatever the shapes of `choices`, its
elements, `message` and `content` — extraction is total: it returns a
string or raises a `VLLMError`, never a type or indexing error; only a
non-dict top-level value crashes. -/
theorem C10_dict_extraction_total :
    ∀ kvs : List (String × Json),
      (∃ s, extractMessageContent (Json.obj kvs) = ExtractResult.ok s) ∨
      (∃ e, extractMessageContent (Json.obj kvs) = ExtractResult.err e) := by
  intro kvs
  cases h : extractMessageContent (Json.obj kvs) with
  | ok s => exact Or.inl ⟨s, rfl⟩
  | err e => exact Or.inr ⟨e, rfl⟩
  | typeError m => exact absurd h (extract_obj_ne_typeError kvs m)
